import Mathlib

/-!
Shallow embedding of the VolumeVision studio app (`src/app/page.tsx`,
`src/components/volume-vision/camera-view.tsx`) over exact rationals.

Continuous quantities (normalized box coordinates, liquid level, volume)
are modelled as `ℚ`; every embedded function is total and computable, so
JavaScript `NaN`/`Infinity` have no counterpart — where a claim speaks of
them, the embedded statement is totality plus the stated range.
Asynchronous service calls (the TF.js detector, the confidence flow) are
modelled by passing their outcome as an `Except` value; a `try`/`catch`
body becomes a total function on that outcome.
-/

namespace Studio

/-- Normalized bounding box `[x_min, y_min, x_max, y_max]`, embedding the
4-element `box: number[]` of `DetectedObject` in `camera-view.tsx`. -/
structure Box where
  xMin : ℚ
  yMin : ℚ
  xMax : ℚ
  yMax : ℚ
deriving Repr, DecidableEq

/-- Structure `DetectedObject` from `camera-view.tsx`: a label and a normalized box. -/
structure DetectedObject where
  label : String
  box : Box
deriving Repr, DecidableEq

/-- Flag `isSimulating` in `page.tsx`: `detectedObjects.length === 0`. -/
def isSimulating (detectedObjects : List DetectedObject) : Bool :=
  detectedObjects.length == 0

/-- Function `dynamicLiquidLevel` from `page.tsx` (lines 44–60).  The source computes
an intermediate `const level = Math.min(100, Math.max(0, ...))` that it never
uses, and then returns `Math.round(100 - (glass.box[1] * 100))`.  JavaScript
`Math.round x = ⌊x + 1/2⌋`, which is Mathlib's `round`. -/
def dynamicLiquidLevel (detectedObjects : List DetectedObject)
    (liquidLevel : ℚ) : ℚ :=
  if isSimulating detectedObjects || detectedObjects.length == 0 then
    liquidLevel
  else
    match detectedObjects with
    | [] => liquidLevel -- unreachable: the guard above caught the empty list
    | glass :: _ =>
      let glassHeight := glass.box.yMax - glass.box.yMin
      -- dead local `level` of the source, kept for faithfulness
      let _level : ℚ :=
        min 100 (max 0 ((1 - glass.box.yMin) * 100 * (1 / glassHeight) / 2))
      ((round ((100 : ℚ) - glass.box.yMin * 100) : ℤ) : ℚ)

/-- Modelled from the spec (refinement comparison only): the level formula
the spec states, `clamp(100 - (yMin / (1 - boxHeight)) * 100, 0, 100)`. -/
def specLiquidLevel (b : Box) : ℚ :=
  let boxHeight := b.yMax - b.yMin
  min 100 (max 0 (100 - (b.yMin / (1 - boxHeight)) * 100))

/-- Constant `MAX_VOLUME_ML = 350` from `page.tsx`. -/
def MAX_VOLUME_ML : ℚ := 350

/-- Function `volumeInMl` from `page.tsx`:
`((isSimulating ? liquidLevel : dynamicLiquidLevel) / 100) * MAX_VOLUME_ML`. -/
def volumeInMl (detectedObjects : List DetectedObject) (liquidLevel : ℚ) : ℚ :=
  let level :=
    if isSimulating detectedObjects then liquidLevel
    else dynamicLiquidLevel detectedObjects liquidLevel
  (level / 100) * MAX_VOLUME_ML

/-- The `liquidLevel` prop handed to `CameraView` in `page.tsx`:
`isSimulating ? liquidLevel : dynamicLiquidLevel`. -/
def cameraViewLiquidLevel (detectedObjects : List DetectedObject)
    (liquidLevel : ℚ) : ℚ :=
  if isSimulating detectedObjects then liquidLevel
  else dynamicLiquidLevel detectedObjects liquidLevel

/-- The unit type `export type Unit = "ml" | "oz"` from `page.tsx`. -/
inductive Unit where
  | ml
  | oz
deriving Repr, DecidableEq

/-- Local `const ozVolume = volume * 0.033814` from `camera-view.tsx`. -/
def ozVolume (volume : ℚ) : ℚ := volume * 0.033814

/-- Local `const displayVolume = unit === 'oz' ? ozVolume : volume` from
`camera-view.tsx`. -/
def displayVolume (unit : Unit) (volume : ℚ) : ℚ :=
  if unit = Unit.oz then ozVolume volume else volume

/-- A raw coco-ssd prediction as consumed by `runObjectDetection` in
`page.tsx`: a class label, a confidence score, and a pixel-space bounding
box `bbox = [x, y, width, height]` (here a 4-tuple, accessed positionally
like the source's `p.bbox[0] … p.bbox[3]`). -/
structure Prediction where
  cls : String
  score : ℚ
  bbox : ℚ × ℚ × ℚ × ℚ
deriving Repr, DecidableEq

/-- The filter-and-convert body of `runObjectDetection` (`page.tsx` lines
128–142): keep predictions whose class is `cup` or `wine glass` with
`score > 0.5`, and convert each pixel box `[x, y, w, h]` to the normalized
`[x/W, y/H, (x+w)/W, (y+h)/H]`. -/
def detectGlasses (videoWidth videoHeight : ℚ)
    (predictions : List Prediction) : List DetectedObject :=
  (predictions.filter fun p =>
      (p.cls == "cup" || p.cls == "wine glass") && p.score > 0.5).map
    fun p =>
      { label := p.cls
        box :=
          { xMin := p.bbox.1 / videoWidth
            yMin := p.bbox.2.1 / videoHeight
            xMax := (p.bbox.1 + p.bbox.2.2.1) / videoWidth
            yMax := (p.bbox.2.1 + p.bbox.2.2.2) / videoHeight } }

/-- What one invocation of the poll body publishes: the new
`detectedObjects` state, whether the detector (`model.detect`) was invoked,
and the destructive toast raised, if any. -/
structure PollEffect where
  detections : List DetectedObject
  calledDetector : Bool
  errorToast : Option String
deriving Repr, DecidableEq

/-- Function `runObjectDetection` from `page.tsx` (lines 115–152).  The guard bails
out without calling the detector (clearing a stale non-empty list); on an
`.ok` outcome of `model.detect` it publishes the filtered, converted list;
on a thrown error it publishes the empty list and a destructive toast.  The
function is total: the `catch` swallows the exception. -/
def runObjectDetection (isDetecting modelLoaded videoReady : Bool)
    (prevDetections : List DetectedObject) (videoWidth videoHeight : ℚ)
    (outcome : Except String (List Prediction)) : PollEffect :=
  if !isDetecting || !modelLoaded || !videoReady then
    { detections := if prevDetections.length > 0 then [] else prevDetections
      calledDetector := false
      errorToast := none }
  else
    match outcome with
    | .ok predictions =>
      { detections := detectGlasses videoWidth videoHeight predictions
        calledDetector := true
        errorToast := none }
    | .error msg =>
      { detections := []
        calledDetector := true
        errorToast := some ("Could not perform object detection: " ++ msg) }

/-- The slice of the `Home` component state driving the polling loop. -/
structure AppState where
  isDetecting : Bool
  hasCameraPermission : Bool
  modelLoaded : Bool
  videoReady : Bool
  intervalActive : Bool
  detectedObjects : List DetectedObject
deriving Repr, DecidableEq

/-- The detection-interval `useEffect` from `page.tsx` (lines 154–169): when
`isDetecting && modelRef.current && hasCameraPermission` it installs the
interval, otherwise it clears the interval and resets `detectedObjects`. -/
def syncDetectionEffect (s : AppState) : AppState :=
  if s.isDetecting && s.modelLoaded && s.hasCameraPermission then
    { s with intervalActive := true }
  else
    { s with intervalActive := false, detectedObjects := [] }

/-- One interval firing: if the interval is installed, run the poll body
with the given detector outcome; otherwise nothing happens. -/
def tick (videoWidth videoHeight : ℚ)
    (outcome : Except String (List Prediction)) (s : AppState) :
    AppState × PollEffect :=
  if s.intervalActive then
    let e := runObjectDetection s.isDetecting s.modelLoaded s.videoReady
      s.detectedObjects videoWidth videoHeight outcome
    ({ s with detectedObjects := e.detections }, e)
  else
    (s, { detections := s.detectedObjects, calledDetector := false
          errorToast := none })

/-- Flipping the `Glass Detection` switch off (`setDetecting(false)`)
followed by the re-run of the interval effect. -/
def disableDetection (s : AppState) : AppState :=
  syncDetectionEffect { s with isDetecting := false }

/-- Run a sequence of interval firings, counting detector invocations. -/
def ticks (videoWidth videoHeight : ℚ)
    (outcomes : List (Except String (List Prediction))) (s : AppState) :
    AppState × Nat :=
  match outcomes with
  | [] => (s, 0)
  | o :: rest =>
    let (s', e) := tick videoWidth videoHeight o s
    let (s'', n) := ticks videoWidth videoHeight rest s'
    (s'', (if e.calledDetector then 1 else 0) + n)

/-- A concrete app state with the polling loop up and running. -/
def mkRunning : AppState :=
  { isDetecting := true, hasCameraPermission := true, modelLoaded := true
    videoReady := true, intervalActive := true
    detectedObjects := [⟨"cup", ⟨0, 0, 1, 1⟩⟩] }

/-- The confidence score/reasoning pair published by
`calculateVolumeConfidenceScore`. -/
structure ConfidenceResult where
  score : ℚ
  reasoning : String
deriving Repr, DecidableEq

/-- Function `updateConfidence` from `page.tsx` (lines 89–113): the early guard
publishes `null` without issuing a request; otherwise the service outcome is
awaited and a thrown error is caught, publishing `null`.  Returns the
published confidence and whether a request was issued; the function is
total, so no exception escapes. -/
def updateConfidence (isDetecting : Bool)
    (detectedObjects : List DetectedObject)
    (serviceOutcome : Except String ConfidenceResult) :
    Option ConfidenceResult × Bool :=
  if !isDetecting || detectedObjects.length == 0 then
    (none, false)
  else
    match serviceOutcome with
    | .ok result => (some result, true)
    | .error _ => (none, true)

end Studio

namespace Studio

/-- On a non-empty detection list, `dynamicLiquidLevel` takes the detection
branch: the guard is false and the dead `level` binding drops out. -/
lemma dynamicLiquidLevel_cons (glass : DetectedObject)
    (rest : List DetectedObject) (liquidLevel : ℚ) :
    dynamicLiquidLevel (glass :: rest) liquidLevel =
      ((round ((100 : ℚ) - glass.box.yMin * 100) : ℤ) : ℚ) := by
  simp [dynamicLiquidLevel, isSimulating]

/-- C1, counterexample: for the first box `[0.25, 0.1, 0.75, 0.9]` the code
yields level `90`, while the spec formula
`clamp(100 - (yMin / (1 - boxHeight)) * 100, 0, 100)` yields `50`; the two
disagree, refuting the claim that `dynamicLiquidLevel` follows the spec
formula (and its scenario value `50`). -/
theorem dynamicLiquidLevel_spec_formula_refuted :
    dynamicLiquidLevel [⟨"cup", ⟨0.25, 0.1, 0.75, 0.9⟩⟩] 50 = 90 ∧
    specLiquidLevel ⟨0.25, 0.1, 0.75, 0.9⟩ = 50 ∧
    dynamicLiquidLevel [⟨"cup", ⟨0.25, 0.1, 0.75, 0.9⟩⟩] 50 ≠
      specLiquidLevel ⟨0.25, 0.1, 0.75, 0.9⟩ := by
  refine ⟨?_, ?_, ?_⟩ <;>
    norm_num [dynamicLiquidLevel, isSimulating, specLiquidLevel, round_eq]

/-- C1, amended: for every detection list whose first box is
`[xMin, yMin, xMax, yMax]` with `yMin ≥ 0` and `boxHeight < 1`, the derived
liquid level equals `round(100 - yMin * 100)` — the box height plays no role
and no clamping beyond rounding is applied (for the box
`[0.25, 0.1, 0.75, 0.9]` this gives `90`, not `50`). -/
theorem dynamicLiquidLevel_eq_round_of_yMin (glass : DetectedObject)
    (rest : List DetectedObject) (liquidLevel : ℚ)
    (hy : 0 ≤ glass.box.yMin)
    (hh : glass.box.yMax - glass.box.yMin < 1) :
    dynamicLiquidLevel (glass :: rest) liquidLevel =
      ((round ((100 : ℚ) - glass.box.yMin * 100) : ℤ) : ℚ) :=
  dynamicLiquidLevel_cons glass rest liquidLevel

theorem dynamicLiquidLevel_eq_round_of_yMin_witness :
    (0 : ℚ) ≤ (Box.mk 0.25 0.1 0.75 0.9).yMin ∧
    (Box.mk 0.25 0.1 0.75 0.9).yMax - (Box.mk 0.25 0.1 0.75 0.9).yMin < 1 ∧
    dynamicLiquidLevel [⟨"cup", ⟨0.25, 0.1, 0.75, 0.9⟩⟩] 50 =
      ((round ((100 : ℚ) - (Box.mk 0.25 0.1 0.75 0.9).yMin * 100) : ℤ) : ℚ) :=
  ⟨by norm_num, by norm_num,
    dynamicLiquidLevel_eq_round_of_yMin ⟨"cup", ⟨0.25, 0.1, 0.75, 0.9⟩⟩ [] 50
      (by norm_num) (by norm_num)⟩

/-- C2: for every detection list whose first box has `yMin = 0` and
`boxHeight < 1`, the derived liquid level equals `100`. -/
theorem dynamicLiquidLevel_full_at_top (glass : DetectedObject)
    (rest : List DetectedObject) (liquidLevel : ℚ)
    (hy : glass.box.yMin = 0)
    (hh : glass.box.yMax - glass.box.yMin < 1) :
    dynamicLiquidLevel (glass :: rest) liquidLevel = 100 := by
  rw [dynamicLiquidLevel_cons, hy]
  norm_num [round_eq]

theorem dynamicLiquidLevel_full_at_top_witness :
    (Box.mk 0 0 0.5 0.5).yMin = 0 ∧
    (Box.mk 0 0 0.5 0.5).yMax - (Box.mk 0 0 0.5 0.5).yMin < 1 ∧
    dynamicLiquidLevel [⟨"cup", ⟨0, 0, 0.5, 0.5⟩⟩] 7 = 100 :=
  ⟨by norm_num, by norm_num,
    dynamicLiquidLevel_full_at_top ⟨"cup", ⟨0, 0, 0.5, 0.5⟩⟩ [] 7
      (by norm_num) (by norm_num)⟩

/-- C3: for every detection list whose first box has all coordinates in
`[0, 1]` and `yMin < yMax` (box height up to and including `1`), the derived
liquid level lies in `[0, 100]`.  The embedding is over `ℚ`, where
`dynamicLiquidLevel` is a total function, so no `NaN`/`Infinity` can reach
the output; the returned expression contains no division at all (the only
division in the source sits in the dead local `level`, whose divisor
`glassHeight` is positive under `yMin < yMax` anyway). -/
theorem dynamicLiquidLevel_in_range (glass : DetectedObject)
    (rest : List DetectedObject) (liquidLevel : ℚ)
    (hx : 0 ≤ glass.box.xMin ∧ glass.box.xMin ≤ 1)
    (hX : 0 ≤ glass.box.xMax ∧ glass.box.xMax ≤ 1)
    (hy : 0 ≤ glass.box.yMin ∧ glass.box.yMin ≤ 1)
    (hY : 0 ≤ glass.box.yMax ∧ glass.box.yMax ≤ 1)
    (hlt : glass.box.yMin < glass.box.yMax) :
    0 ≤ dynamicLiquidLevel (glass :: rest) liquidLevel ∧
    dynamicLiquidLevel (glass :: rest) liquidLevel ≤ 100 := by
  rw [dynamicLiquidLevel_cons]
  constructor
  · have h : (0 : ℤ) ≤ round ((100 : ℚ) - glass.box.yMin * 100) := by
      rw [round_eq]
      exact Int.le_floor.mpr (by push_cast; linarith [hy.2])
    exact_mod_cast h
  · have h : round ((100 : ℚ) - glass.box.yMin * 100) ≤ 100 := by
      rw [round_eq]
      calc ⌊(100 : ℚ) - glass.box.yMin * 100 + 1 / 2⌋
          ≤ ⌊(201 : ℚ) / 2⌋ := Int.floor_le_floor (by linarith [hy.1])
        _ = 100 := by norm_num
    exact_mod_cast h

theorem dynamicLiquidLevel_in_range_witness :
    ((0 : ℚ) ≤ 0 ∧ (0 : ℚ) ≤ 1) ∧ ((0 : ℚ) ≤ 1 ∧ (1 : ℚ) ≤ 1) ∧
    ((0 : ℚ) ≤ 0 ∧ (0 : ℚ) ≤ 1) ∧ ((0 : ℚ) ≤ 1 ∧ (1 : ℚ) ≤ 1) ∧
    (0 : ℚ) < 1 ∧
    (0 ≤ dynamicLiquidLevel [⟨"cup", ⟨0, 0, 1, 1⟩⟩] 7 ∧
      dynamicLiquidLevel [⟨"cup", ⟨0, 0, 1, 1⟩⟩] 7 ≤ 100) :=
  ⟨⟨by norm_num, by norm_num⟩, ⟨by norm_num, by norm_num⟩,
    ⟨by norm_num, by norm_num⟩, ⟨by norm_num, by norm_num⟩, by norm_num,
    dynamicLiquidLevel_in_range ⟨"cup", ⟨0, 0, 1, 1⟩⟩ [] 7
      ⟨by norm_num, by norm_num⟩ ⟨by norm_num, by norm_num⟩
      ⟨by norm_num, by norm_num⟩ ⟨by norm_num, by norm_num⟩ (by norm_num)⟩

/-- C4: with a non-empty detection list, the level handed to `CameraView`
(and the one inside `volumeInMl`) depends only on the first detection — it is
unchanged by the slider value and by the remaining detections; with an empty
list, the displayed level is exactly the slider value and the volume is
computed from it. -/
theorem displayed_level_source (d : DetectedObject) (ds : List DetectedObject)
    (slider slider' : ℚ) :
    cameraViewLiquidLevel (d :: ds) slider = cameraViewLiquidLevel [d] slider' ∧
    volumeInMl (d :: ds) slider =
      (cameraViewLiquidLevel (d :: ds) slider / 100) * MAX_VOLUME_ML ∧
    cameraViewLiquidLevel [] slider = slider ∧
    volumeInMl [] slider = (slider / 100) * MAX_VOLUME_ML := by
  refine ⟨?_, ?_, ?_, ?_⟩ <;>
    simp [cameraViewLiquidLevel, volumeInMl, isSimulating,
      dynamicLiquidLevel_cons]

/-- C9: for every volume `v` in milliliters, displaying in `oz` yields
`v * 0.033814` and displaying in `ml` yields `v` unchanged. -/
theorem displayVolume_conversion (v : ℚ) :
    displayVolume Unit.oz v = v * 0.033814 ∧ displayVolume Unit.ml v = v := by
  constructor <;> simp [displayVolume, ozVolume]

/-- C10: the liquid level derived from a non-empty detection list depends
only on the first box's `yMin` — two lists whose first boxes share `yMin`
yield the same level whatever their other coordinates, tails and slider
values — and the result is an integer. -/
theorem dynamicLiquidLevel_yMin_only (g₁ g₂ : DetectedObject)
    (r₁ r₂ : List DetectedObject) (l₁ l₂ : ℚ)
    (h : g₁.box.yMin = g₂.box.yMin) :
    dynamicLiquidLevel (g₁ :: r₁) l₁ = dynamicLiquidLevel (g₂ :: r₂) l₂ ∧
    ∃ n : ℤ, dynamicLiquidLevel (g₁ :: r₁) l₁ = (n : ℚ) := by
  rw [dynamicLiquidLevel_cons, dynamicLiquidLevel_cons, h]
  exact ⟨rfl, _, rfl⟩

/-- C5: with the loop guards satisfied and a successful detector call, the
published list holds exactly the predictions labelled `cup` or `wine glass`
with score strictly above `0.5`, each converted from pixel
`[x, y, w, h]` to normalized `[x/W, y/H, (x+w)/W, (y+h)/H]`. -/
theorem published_detections_exact (videoWidth videoHeight : ℚ)
    (hW : 0 < videoWidth) (hH : 0 < videoHeight)
    (predictions : List Prediction) (prev : List DetectedObject)
    (d : DetectedObject) :
    d ∈ (runObjectDetection true true true prev videoWidth videoHeight
        (.ok predictions)).detections ↔
      ∃ p ∈ predictions,
        (p.cls = "cup" ∨ p.cls = "wine glass") ∧ (0.5 : ℚ) < p.score ∧
        d = { label := p.cls
              box := { xMin := p.bbox.1 / videoWidth
                       yMin := p.bbox.2.1 / videoHeight
                       xMax := (p.bbox.1 + p.bbox.2.2.1) / videoWidth
                       yMax := (p.bbox.2.1 + p.bbox.2.2.2) / videoHeight } } := by
  simp [runObjectDetection, detectGlasses, List.mem_filter, List.mem_map,
    Bool.and_eq_true, Bool.or_eq_true, beq_iff_eq, decide_eq_true_eq]
  constructor
  · rintro ⟨p, ⟨hp, hcls, hscore⟩, rfl⟩
    exact ⟨p, hp, hcls, hscore, rfl⟩
  · rintro ⟨p, hp, hcls, hscore, rfl⟩
    exact ⟨p, ⟨hp, hcls, hscore⟩, rfl⟩

theorem published_detections_exact_witness :
    (0 : ℚ) < 2 ∧ (0 : ℚ) < 4 ∧
    (DetectedObject.mk "cup" ⟨1/2, 1/4, 1, 1/2⟩ ∈
      (runObjectDetection true true true [] 2 4
        (.ok [⟨"cup", 3/4, (1, 1, 1, 1)⟩])).detections) :=
  ⟨by norm_num, by norm_num,
    (published_detections_exact 2 4 (by norm_num) (by norm_num)
        [⟨"cup", 3/4, (1, 1, 1, 1)⟩] [] ⟨"cup", ⟨1/2, 1/4, 1, 1/2⟩⟩).mpr
      ⟨⟨"cup", 3/4, (1, 1, 1, 1)⟩, by simp, Or.inl rfl, by norm_num, by
        norm_num⟩⟩

/-- C6: when a poll in the running loop sees the detector throw, the poll
publishes the empty detection list, raises a destructive error toast, and
the loop is still running — the interval stays installed and the very next
firing calls the detector again; the poll body itself is total, so the
exception does not escape it. -/
theorem detector_error_recovery (s : AppState) (videoWidth videoHeight : ℚ)
    (msg : String) (next : Except String (List Prediction))
    (hAct : s.intervalActive = true) (hDet : s.isDetecting = true)
    (hMod : s.modelLoaded = true) (hVid : s.videoReady = true) :
    (tick videoWidth videoHeight (.error msg) s).2.calledDetector = true ∧
    (tick videoWidth videoHeight (.error msg) s).1.detectedObjects = [] ∧
    (tick videoWidth videoHeight (.error msg) s).2.errorToast =
      some ("Could not perform object detection: " ++ msg) ∧
    (tick videoWidth videoHeight (.error msg) s).1.intervalActive = true ∧
    (tick videoWidth videoHeight next
        (tick videoWidth videoHeight (.error msg) s).1).2.calledDetector =
      true := by
  cases next <;>
    simp [tick, runObjectDetection, hAct, hDet, hMod, hVid]

theorem detector_error_recovery_witness :
    (mkRunning.intervalActive = true ∧ mkRunning.isDetecting = true ∧
      mkRunning.modelLoaded = true ∧ mkRunning.videoReady = true) ∧
    ((tick 2 2 (.error "boom") mkRunning).2.calledDetector = true ∧
      (tick 2 2 (.error "boom") mkRunning).1.detectedObjects = [] ∧
      (tick 2 2 (.error "boom") mkRunning).2.errorToast =
        some ("Could not perform object detection: " ++ "boom") ∧
      (tick 2 2 (.error "boom") mkRunning).1.intervalActive = true ∧
      (tick 2 2 (.error "boom")
          (tick 2 2 (.error "boom") mkRunning).1).2.calledDetector = true) :=
  ⟨⟨rfl, rfl, rfl, rfl⟩,
    detector_error_recovery mkRunning 2 2 "boom" (.error "boom")
      rfl rfl rfl rfl⟩

/-- C7: when detection is off or no object is detected, `updateConfidence`
publishes `null` without issuing a request; and whenever the confidence
service throws, the published confidence is `null` — the catch makes the
function total, so no exception reaches the caller. -/
theorem updateConfidence_null_paths (isDetecting : Bool)
    (detectedObjects : List DetectedObject)
    (outcome : Except String ConfidenceResult) (msg : String) :
    ((isDetecting = false ∨ detectedObjects = []) →
      updateConfidence isDetecting detectedObjects outcome = (none, false)) ∧
    (updateConfidence isDetecting detectedObjects (.error msg)).1 = none := by
  constructor
  · rintro (h | h) <;> subst h <;> simp [updateConfidence]
  · unfold updateConfidence
    split <;> rfl

theorem updateConfidence_null_paths_witness :
    updateConfidence false [] (.error "boom") = (none, false) ∧
    (updateConfidence true [⟨"cup", ⟨0, 0, 1, 1⟩⟩] (.error "boom")).1 =
      none :=
  ⟨(updateConfidence_null_paths false [] (.error "boom") "boom").1
      (Or.inl rfl),
    (updateConfidence_null_paths true [⟨"cup", ⟨0, 0, 1, 1⟩⟩]
        (.ok ⟨1, "r"⟩) "boom").2⟩

/-- With no interval installed, a firing changes nothing and calls no
detector. -/
lemma tick_inactive (videoWidth videoHeight : ℚ)
    (o : Except String (List Prediction)) (s : AppState)
    (h : s.intervalActive = false) :
    tick videoWidth videoHeight o s =
      (s, { detections := s.detectedObjects, calledDetector := false
            errorToast := none }) := by
  simp [tick, h]

/-- With no interval installed, any sequence of firings is inert. -/
lemma ticks_inactive (videoWidth videoHeight : ℚ)
    (outcomes : List (Except String (List Prediction))) (s : AppState)
    (h : s.intervalActive = false) :
    ticks videoWidth videoHeight outcomes s = (s, 0) := by
  induction outcomes with
  | nil => rfl
  | cons o rest ih =>
    simp [ticks, tick_inactive videoWidth videoHeight o s h, ih]

/-- C8: after the detection switch is disabled (and the interval effect has
re-run), the detection list is reset to empty and any sequence of interval
firings performs zero detector calls and leaves the list empty. -/
theorem disable_stops_polling (s : AppState) (videoWidth videoHeight : ℚ)
    (outcomes : List (Except String (List Prediction))) :
    (disableDetection s).detectedObjects = [] ∧
    (ticks videoWidth videoHeight outcomes (disableDetection s)).2 = 0 ∧
    (ticks videoWidth videoHeight outcomes
        (disableDetection s)).1.detectedObjects = [] := by
  have hA : (disableDetection s).intervalActive = false := by
    simp [disableDetection, syncDetectionEffect]
  have hD : (disableDetection s).detectedObjects = [] := by
    simp [disableDetection, syncDetectionEffect]
  rw [ticks_inactive videoWidth videoHeight outcomes _ hA]
  exact ⟨hD, rfl, hD⟩

theorem dynamicLiquidLevel_yMin_only_witness :
    (Box.mk 0 0.2 1 1).yMin = (Box.mk 0.5 0.2 0.6 0.4).yMin ∧
    (dynamicLiquidLevel [⟨"cup", ⟨0, 0.2, 1, 1⟩⟩] 3 =
        dynamicLiquidLevel [⟨"wine glass", ⟨0.5, 0.2, 0.6, 0.4⟩⟩] 88 ∧
      ∃ n : ℤ, dynamicLiquidLevel [⟨"cup", ⟨0, 0.2, 1, 1⟩⟩] 3 = (n : ℚ)) :=
  ⟨by norm_num,
    dynamicLiquidLevel_yMin_only ⟨"cup", ⟨0, 0.2, 1, 1⟩⟩
      ⟨"wine glass", ⟨0.5, 0.2, 0.6, 0.4⟩⟩ [] [] 3 88 (by norm_num)⟩

end Studio
